import Mathlib

/-!
Verification development for the P_MEIS input-binding core.

Shallow embedding conventions:
* `float`/`double` values are modelled as `Rat` (JSON numbers are written and
  read back exactly by the storage layer, so exact rationals are faithful).
* `FName`, `FString` and `FText` are modelled as `String`; `NAME_None` is the
  empty string.  An `FKey` is identified by its name string; `FKey::IsValid`
  is abstracted as "name is nonempty" (key registration in the host engine is
  out of scope).
* `FDateTime` is modelled as an integer tick count; `FDateTime::Now()` is
  passed explicitly where the source calls it.
* `TMap` and `TSet` members are modelled as association lists / duplicate-free
  lists in insertion order, matching the iteration order the source relies on.
-/

namespace PMEIS

/-- JSON value tree, standing for the `FJsonObject` / `FJsonValue` data that
`SerializeProfileToJson` builds and `DeserializeProfileFromJson` reads.
Objects keep their fields as an ordered association list. -/
inductive Json where
  | str : String → Json
  | num : Rat → Json
  | jbool : Bool → Json
  | arr : List Json → Json
  | obj : List (String × Json) → Json
  | null : Json
deriving Repr, Inhabited

/-- Field lookup on a JSON object (`FJsonObject::TryGetField`); `none` when
the value is not an object or the field is absent. -/
def Json.getField : Json → String → Option Json
  | .obj fields, name => fields.lookup name
  | _, _ => none

/-- `TryGetStringField`: succeeds only on a present string field. -/
def Json.tryGetString (j : Json) (name : String) : Option String :=
  match j.getField name with
  | some (.str s) => some s
  | _ => none

/-- `TryGetNumberField` (double overload): succeeds only on a present number field. -/
def Json.tryGetNumber (j : Json) (name : String) : Option Rat :=
  match j.getField name with
  | some (.num q) => some q
  | _ => none

/-- `TryGetBoolField`: succeeds only on a present boolean field. -/
def Json.tryGetBool (j : Json) (name : String) : Option Bool :=
  match j.getField name with
  | some (.jbool b) => some b
  | _ => none

/-- `TryGetArrayField`: succeeds only on a present array field. -/
def Json.tryGetArray (j : Json) (name : String) : Option (List Json) :=
  match j.getField name with
  | some (.arr a) => some a
  | _ => none

/-- `GetStringField`: missing or non-string fields yield the empty string
(the UE implementation logs a warning and returns a default value). -/
def Json.getStringField (j : Json) (name : String) : String :=
  (j.tryGetString name).getD ""

/-- `GetNumberField`: missing or non-number fields yield `0`. -/
def Json.getNumberField (j : Json) (name : String) : Rat :=
  (j.tryGetNumber name).getD 0

/-- `GetBoolField`: missing or non-boolean fields yield `false`. -/
def Json.getBoolField (j : Json) (name : String) : Bool :=
  (j.tryGetBool name).getD false

/-- Rounding used by `TryGetNumberField(FieldName, int32&)`
(`FMath::RoundHalfFromZero`). -/
def ratRoundHalfFromZero (q : Rat) : Int :=
  if 0 ≤ q then ⌊q + (1 : Rat) / 2⌋ else -⌊-q + (1 : Rat) / 2⌋

/-- Truncation toward zero used by `GetIntegerField` (a C cast to `int32`). -/
def ratTruncToInt (q : Rat) : Int :=
  if 0 ≤ q then ⌊q⌋ else -⌊-q⌋

/-- `TryGetNumberField` with an `int32` out-parameter. -/
def Json.tryGetInt (j : Json) (name : String) : Option Int :=
  (j.tryGetNumber name).map ratRoundHalfFromZero

/-- `GetIntegerField`. -/
def Json.getIntegerField (j : Json) (name : String) : Int :=
  ratTruncToInt (j.getNumberField name)

/-- `FJsonValue::AsObject` succeeding: the raw field list of an object value. -/
def Json.asObjFields : Json → Option (List (String × Json))
  | .obj fields => some fields
  | _ => none

/-- `FJsonValue::TryGetString` on an array element. -/
def Json.asString : Json → Option String
  | .str s => some s
  | _ => none

/-- `FKey::IsValid`, abstracted: a key name is valid iff it is nonempty
(`NAME_None` is the empty string in this model). -/
def isValidKey (k : String) : Bool := k != ""

/-- `FS_KeyBinding` from `FS_InputActionBinding.h`. -/
structure FS_KeyBinding where
  Key : String := ""
  Value : Rat := 1
  bShift : Bool := false
  bCtrl : Bool := false
  bAlt : Bool := false
  bCmd : Bool := false
deriving Repr, DecidableEq, Inhabited

/-- `FS_InputActionBinding` from `FS_InputActionBinding.h`. -/
structure FS_InputActionBinding where
  InputActionName : String := ""
  DisplayName : String := ""
  Category : String := "General"
  Description : String := ""
  KeyBindings : List FS_KeyBinding := []
  Priority : Rat := 1
  bEnabled : Bool := true
deriving Repr, DecidableEq, Inhabited

/-- `FS_AxisKeyBinding` from `FS_InputAxisBinding.h`. -/
structure FS_AxisKeyBinding where
  Key : String := ""
  Scale : Rat := 1
  bSwizzleYXZ : Bool := false
deriving Repr, DecidableEq, Inhabited

/-- `FS_InputAxisBinding` from `FS_InputAxisBinding.h`.  `ValueType` holds an
`EInputActionValueType` as its integer value (0 = Boolean, 1 = Axis1D,
2 = Axis2D, 3 = Axis3D); the struct default is `Axis1D`. -/
structure FS_InputAxisBinding where
  InputAxisName : String := ""
  DisplayName : String := ""
  Category : String := "General"
  Description : String := ""
  AxisBindings : List FS_AxisKeyBinding := []
  ValueType : Int := 1
  DeadZone : Rat := 1 / 5
  Sensitivity : Rat := 1
  Priority : Rat := 1
  bEnabled : Bool := true
  bInvert : Bool := false
deriving Repr, DecidableEq, Inhabited

/-- Legacy `FS_InputModifier` from `FS_InputModifier.h`.  `ModifierType` holds
an `EInputModifierType` as its integer value (DeadZone = 0). -/
structure FS_InputModifier where
  ModifierType : Int := 0
  DeadZoneValue : Rat := 1 / 5
  ScaleValue : Rat := 1
  ClampRange : Rat × Rat := (-1, 1)
  bInvert : Bool := false
  bEnabled : Bool := true
deriving Repr, DecidableEq, Inhabited

/-- `FS_InputProfile` from `FS_InputProfile.h`.  `ToggleActionStates` models
the header's `TMap<FName, bool>` as an association list.  The extra
`bActiveActionToggles` list is the field the storage translation unit
(`CPP_InputProfileStorage.cpp`) reads and writes; it does not appear in
`FS_InputProfile.h`, while the header's `ToggleActionStates` is never
touched by the serializer. -/
structure FS_InputProfile where
  ProfileName : String := ""
  ProfileDescription : String := ""
  ActionBindings : List FS_InputActionBinding := []
  AxisBindings : List FS_InputAxisBinding := []
  Modifiers : List FS_InputModifier := []
  ToggleModeActions : List String := []
  ToggleActionStates : List (String × Bool) := []
  bActiveActionToggles : List String := []
  Timestamp : Int := 0
  Version : Int := 4
  CreatedBy : String := ""
  bIsDefault : Bool := false
  bIsCompetitive : Bool := false
deriving Repr, DecidableEq, Inhabited

/-- A freshly default-constructed `FS_InputProfile`; `now` is the
`FDateTime::Now()` value taken by the `Timestamp` field initializer. -/
def freshProfile (now : Int) : FS_InputProfile := { Timestamp := now }

/-- Key-binding object written by `SerializeProfileToJson`. -/
def serializeKeyBinding (kb : FS_KeyBinding) : Json :=
  .obj [("Key", .str kb.Key), ("Value", .num kb.Value),
        ("bShift", .jbool kb.bShift), ("bCtrl", .jbool kb.bCtrl),
        ("bAlt", .jbool kb.bAlt), ("bCmd", .jbool kb.bCmd)]

/-- Action-binding object written by `SerializeProfileToJson`. -/
def serializeActionBinding (ab : FS_InputActionBinding) : Json :=
  .obj [("InputActionName", .str ab.InputActionName),
        ("DisplayName", .str ab.DisplayName),
        ("Category", .str ab.Category),
        ("Description", .str ab.Description),
        ("Priority", .num ab.Priority),
        ("bEnabled", .jbool ab.bEnabled),
        ("KeyBindings", .arr (ab.KeyBindings.map serializeKeyBinding))]

/-- Axis-key object written by `SerializeProfileToJson`. -/
def serializeAxisKeyBinding (ak : FS_AxisKeyBinding) : Json :=
  .obj [("Key", .str ak.Key), ("Scale", .num ak.Scale),
        ("bSwizzleYXZ", .jbool ak.bSwizzleYXZ)]

/-- Axis-binding object written by `SerializeProfileToJson`. -/
def serializeAxisBinding (ax : FS_InputAxisBinding) : Json :=
  .obj [("InputAxisName", .str ax.InputAxisName),
        ("DisplayName", .str ax.DisplayName),
        ("Category", .str ax.Category),
        ("Description", .str ax.Description),
        ("ValueType", .num (ax.ValueType : Rat)),
        ("DeadZone", .num ax.DeadZone),
        ("Sensitivity", .num ax.Sensitivity),
        ("Priority", .num ax.Priority),
        ("bInvert", .jbool ax.bInvert),
        ("bEnabled", .jbool ax.bEnabled),
        ("AxisBindings", .arr (ax.AxisBindings.map serializeAxisKeyBinding))]

/-- Legacy-modifier object written by `SerializeProfileToJson`; note that
`ClampRange` and `bInvert` are not emitted. -/
def serializeModifier (m : FS_InputModifier) : Json :=
  .obj [("ModifierType", .num (m.ModifierType : Rat)),
        ("DeadZoneValue", .num m.DeadZoneValue),
        ("ScaleValue", .num m.ScaleValue),
        ("bEnabled", .jbool m.bEnabled)]

/-- `UCPP_InputProfileStorage::SerializeProfileToJson`, as the JSON tree the
writer emits.  The source writes `Profile.bActiveActionToggles` for the
`"bActiveActionToggles"` array and emits neither `Timestamp` nor the
header's `ToggleActionStates` map. -/
def SerializeProfileToJson (p : FS_InputProfile) : Json :=
  .obj [("ProfileName", .str p.ProfileName),
        ("ProfileDescription", .str p.ProfileDescription),
        ("CreatedBy", .str p.CreatedBy),
        ("Version", .num (p.Version : Rat)),
        ("bIsDefault", .jbool p.bIsDefault),
        ("bIsCompetitive", .jbool p.bIsCompetitive),
        ("ToggleModeActions", .arr (p.ToggleModeActions.map Json.str)),
        ("bActiveActionToggles", .arr (p.bActiveActionToggles.map Json.str)),
        ("ActionBindings", .arr (p.ActionBindings.map serializeActionBinding)),
        ("AxisBindings", .arr (p.AxisBindings.map serializeAxisBinding)),
        ("Modifiers", .arr (p.Modifiers.map serializeModifier))]

/-- One element of the `"KeyBindings"` array in
`DeserializeProfileFromJson`; `none` when the element is not an object
(the loop `continue`s over such elements).  A missing `"Value"` keeps the
local default `1.0`; missing chord flags keep the struct defaults. -/
def parseKeyBinding (v : Json) : Option FS_KeyBinding :=
  match v with
  | .obj _ =>
      some { Key := v.getStringField "Key"
             Value := (v.tryGetNumber "Value").getD 1
             bShift := (v.tryGetBool "bShift").getD false
             bCtrl := (v.tryGetBool "bCtrl").getD false
             bAlt := (v.tryGetBool "bAlt").getD false
             bCmd := (v.tryGetBool "bCmd").getD false }
  | _ => none

/-- One element of the `"ActionBindings"` array in
`DeserializeProfileFromJson`.  `Priority` and `bEnabled` are read with the
plain getters (`GetNumberField` / `GetBoolField`), so a missing field yields
`0` / `false` rather than the struct defaults. -/
def parseActionBinding (v : Json) : Option FS_InputActionBinding :=
  match v with
  | .obj _ =>
      some { InputActionName := v.getStringField "InputActionName"
             DisplayName := v.getStringField "DisplayName"
             Category := v.getStringField "Category"
             Description := v.getStringField "Description"
             Priority := v.getNumberField "Priority"
             bEnabled := v.getBoolField "bEnabled"
             KeyBindings :=
               match v.tryGetArray "KeyBindings" with
               | some a => a.filterMap parseKeyBinding
               | none => [] }
  | _ => none

/-- One element of the `"AxisBindings"` array of an axis object in
`DeserializeProfileFromJson`.  A missing `"Scale"` keeps the local default
`1.0`; a missing `"bSwizzleYXZ"` keeps the struct default. -/
def parseAxisKeyBinding (v : Json) : Option FS_AxisKeyBinding :=
  match v with
  | .obj _ =>
      some { Key := v.getStringField "Key"
             Scale := (v.tryGetNumber "Scale").getD 1
             bSwizzleYXZ := (v.tryGetBool "bSwizzleYXZ").getD false }
  | _ => none

/-- One element of the `"AxisBindings"` array in
`DeserializeProfileFromJson`.  `DisplayName`, `Description`, `ValueType` and
`Priority` fall back to the struct defaults through their `TryGet` reads,
while `DeadZone`, `Sensitivity`, `bInvert` and `bEnabled` are read with the
plain getters and so become `0` / `false` when absent. -/
def parseAxisBinding (v : Json) : Option FS_InputAxisBinding :=
  match v with
  | .obj _ =>
      some { InputAxisName := v.getStringField "InputAxisName"
             Category := v.getStringField "Category"
             DisplayName := (v.tryGetString "DisplayName").getD ""
             Description := (v.tryGetString "Description").getD ""
             ValueType := (v.tryGetInt "ValueType").getD 1
             DeadZone := v.getNumberField "DeadZone"
             Sensitivity := v.getNumberField "Sensitivity"
             Priority := (v.tryGetNumber "Priority").getD 1
             bInvert := v.getBoolField "bInvert"
             bEnabled := v.getBoolField "bEnabled"
             AxisBindings :=
               match v.tryGetArray "AxisBindings" with
               | some a => a.filterMap parseAxisKeyBinding
               | none => [] }
  | _ => none

/-- One element of the `"Modifiers"` array in `DeserializeProfileFromJson`.
Only the four serialized fields are read; `ClampRange` and `bInvert` keep
the struct defaults. -/
def parseModifier (v : Json) : Option FS_InputModifier :=
  match v with
  | .obj _ =>
      some { ModifierType := v.getIntegerField "ModifierType"
             DeadZoneValue := v.getNumberField "DeadZoneValue"
             ScaleValue := v.getNumberField "ScaleValue"
             bEnabled := v.getBoolField "bEnabled" }
  | _ => none

/-- `UCPP_InputProfileStorage::DeserializeProfileFromJson`.  The `out`
argument is the caller's `OutProfile`: fields the source never assigns
(`Timestamp`, `ToggleActionStates`) and the two `TryGetBoolField` reads that
only assign on success keep the values `out` already held.  `none` models a
JSON parse failure (the only way the source returns `false`). -/
def DeserializeProfileFromJson (j : Json) (out : FS_InputProfile) :
    Option FS_InputProfile :=
  match j with
  | .obj _ =>
      some { ProfileName := j.getStringField "ProfileName"
             ProfileDescription := j.getStringField "ProfileDescription"
             CreatedBy := j.getStringField "CreatedBy"
             Version := (j.tryGetInt "Version").getD 1
             bIsDefault := (j.tryGetBool "bIsDefault").getD out.bIsDefault
             bIsCompetitive :=
               (j.tryGetBool "bIsCompetitive").getD out.bIsCompetitive
             ToggleModeActions :=
               match j.tryGetArray "ToggleModeActions" with
               | some a => a.filterMap Json.asString
               | none => []
             bActiveActionToggles :=
               match j.tryGetArray "bActiveActionToggles" with
               | some a => a.filterMap Json.asString
               | none => []
             ToggleActionStates := out.ToggleActionStates
             Timestamp := out.Timestamp
             ActionBindings :=
               match j.tryGetArray "ActionBindings" with
               | some a => a.filterMap parseActionBinding
               | none => []
             AxisBindings :=
               match j.tryGetArray "AxisBindings" with
               | some a => a.filterMap parseAxisBinding
               | none => []
             Modifiers :=
               match j.tryGetArray "Modifiers" with
               | some a => a.filterMap parseModifier
               | none => [] }
  | _ => none

/-- The deserializer rebuilds a legacy modifier from the four serialized
fields only, so `ClampRange` and `bInvert` come back as struct defaults. -/
def scrubModifier (m : FS_InputModifier) : FS_InputModifier :=
  { m with ClampRange := (-1, 1), bInvert := false }

/-- Profile used to refute the literal round-trip claim. -/
def c1Profile : FS_InputProfile :=
  { freshProfile 5 with
    ProfileName := "Sample"
    ToggleActionStates := [("Jump", true)] }

/-- A well-formed axis object from which only the optional `DeadZone` field
has been omitted. -/
def c2AxisObj : Json :=
  .obj [("InputAxisName", .str "Look"),
        ("DisplayName", .str "Look"),
        ("Category", .str "General"),
        ("Description", .str ""),
        ("ValueType", .num 1),
        ("Sensitivity", .num 1),
        ("Priority", .num 1),
        ("bInvert", .jbool false),
        ("bEnabled", .jbool true),
        ("AxisBindings", .arr [])]

/-- A well-formed profile document whose only omission is the axis
`DeadZone` field. -/
def c2Doc : Json :=
  .obj [("ProfileName", .str "P"),
        ("ProfileDescription", .str ""),
        ("CreatedBy", .str "U"),
        ("Version", .num 4),
        ("bIsDefault", .jbool false),
        ("bIsCompetitive", .jbool false),
        ("ToggleModeActions", .arr []),
        ("bActiveActionToggles", .arr []),
        ("ActionBindings", .arr []),
        ("AxisBindings", .arr [c2AxisObj]),
        ("Modifiers", .arr [])]

/-- The key-plus-chord tuple comparison inside
`UCPP_InputValidator::DetectConflicts`: two key bindings collide when the
key and all four chord flags agree. -/
def keysMatch (ka kb : FS_KeyBinding) : Bool :=
  ka.Key == kb.Key && ka.bCtrl == kb.bCtrl && ka.bShift == kb.bShift &&
    ka.bAlt == kb.bAlt && ka.bCmd == kb.bCmd

/-- The two inner loops of `DetectConflicts` for a fixed pair of bindings:
one `(nameA, nameB)` entry is appended for every matching
`(KeyA, KeyB)` combination. -/
def conflictsBetween (a b : FS_InputActionBinding) :
    List (String × String) :=
  a.KeyBindings.flatMap fun ka =>
    b.KeyBindings.filterMap fun kb =>
      if keysMatch ka kb then
        some (a.InputActionName, b.InputActionName)
      else none

/-- `UCPP_InputValidator::DetectConflicts`: the `OutConflicts` array built by
the nested `i < j` loops, in emission order.  (The function's boolean result
is `OutConflicts.Num() > 0` and is not separately modelled.) -/
def DetectConflicts : List FS_InputActionBinding → List (String × String)
  | [] => []
  | a :: rest => rest.flatMap (conflictsBetween a) ++ DetectConflicts rest

/-- First action of the conflict counterexample: two key bindings. -/
def c3A : FS_InputActionBinding :=
  { InputActionName := "A"
    KeyBindings := [{ Key := "SpaceBar" }, { Key := "E" }] }

/-- Second action of the conflict counterexample: the same two keys. -/
def c3B : FS_InputActionBinding :=
  { InputActionName := "B"
    KeyBindings := [{ Key := "SpaceBar" }, { Key := "E" }] }

/-- Enhanced-input modifier objects attached by the integration engine
(the kinds `ApplyAxisBinding` / `ApplyAxisModifiers` create). -/
inductive InputMod where
  | deadZone (lower upper : Rat)
  | scalar (v : Rat)
  | negate
  | swizzleYXZ
deriving Repr, DecidableEq

/-- `FMath::IsNearlyEqual` with its default `SMALL_NUMBER` tolerance. -/
def IsNearlyEqual (a b : Rat) : Bool := |a - b| ≤ 1 / 100000000

/-- Triggers attached to a mapping-context entry; the chord trigger is the
only kind the modelled code paths create. -/
inductive TrigSpec where
  | chordAction (name : String)
deriving Repr, DecidableEq

/-- A dynamic `UInputAction` as configured by
`UCPP_EnhancedInputIntegration::CreateInputAction`. -/
structure ActionObj where
  ValueType : Int
  bConsumeInput : Bool
  bTriggerWhenPaused : Bool
  ActionDescription : String := ""
  Modifiers : List InputMod := []
deriving Repr, DecidableEq

/-- A mapping-context entry (`FEnhancedActionKeyMapping`). -/
structure CtxEntry where
  Action : String
  Key : String
  Triggers : List TrigSpec := []
  Modifiers : List InputMod := []
deriving Repr, DecidableEq

/-- State of `UCPP_EnhancedInputIntegration`: the dynamic action table (in
insertion order), the mapping-context entries, the bound/pending name sets
and the identity of the adopted `UEnhancedInputComponent`.  The mapping
context itself always exists here (`EnsureMappingContext` never fails in
the model, matching a successful `NewObject`). -/
structure IntegrationState where
  CreatedInputActions : List (String × ActionObj) := []
  ContextEntries : List CtxEntry := []
  BoundActions : List String := []
  PendingBindActions : List String := []
  BoundEnhancedInputComponent : Option Nat := none
deriving Repr, DecidableEq

/-- `UCPP_EnhancedInputIntegration::CreateInputAction`: return the existing
entry unchanged, otherwise create a new action configured with the given
value type, `bConsumeInput = true`, `bTriggerWhenPaused = false`. -/
def CreateInputAction (name : String) (vt : Int) (s : IntegrationState) :
    ActionObj × IntegrationState :=
  match s.CreatedInputActions.lookup name with
  | some a => (a, s)
  | none =>
      let a : ActionObj :=
        { ValueType := vt, bConsumeInput := true,
          bTriggerWhenPaused := false }
      (a, { s with CreatedInputActions :=
              s.CreatedInputActions ++ [(name, a)] })

/-- Assignment `Action->ActionDescription = ...` on a created action. -/
def setActionDescription (name desc : String) (s : IntegrationState) :
    IntegrationState :=
  { s with CreatedInputActions :=
      s.CreatedInputActions.map (fun e =>
        if e.1 = name then (e.1, { e.2 with ActionDescription := desc })
        else e) }

/-- Assignment of a created action's `Modifiers` array. -/
def setActionModifiers (name : String) (mods : List InputMod)
    (s : IntegrationState) : IntegrationState :=
  { s with CreatedInputActions :=
      s.CreatedInputActions.map (fun e =>
        if e.1 = name then (e.1, { e.2 with Modifiers := mods })
        else e) }

/-- `UCPP_EnhancedInputIntegration::ApplyActionBinding`.  Disabled bindings
return false.  Each valid key is mapped with a bare `MapKey`; the source
leaves chord-flag handling to a `TODO` comment, so no modifier action is
synthesized and no chord trigger is attached on this path. -/
def ApplyActionBinding (s : IntegrationState)
    (ab : FS_InputActionBinding) : Bool × IntegrationState :=
  if !ab.bEnabled then (false, s)
  else
    let r := CreateInputAction ab.InputActionName 0 s
    let s1 := setActionDescription ab.InputActionName ab.DisplayName r.2
    let s2 := ab.KeyBindings.foldl
      (fun st kb =>
        if isValidKey kb.Key then
          { st with ContextEntries := st.ContextEntries ++
              [{ Action := ab.InputActionName, Key := kb.Key }] }
        else st) s1
    (true, s2)

/-- `UCPP_EnhancedInputIntegration::ApplyAxisModifiers`: the action-level
modifier list, in source order — radial dead zone iff `DeadZone > 0`,
uniform scale iff the sensitivity is not nearly `1`, negate iff
`bInvert`. -/
def ApplyAxisModifiers (ax : FS_InputAxisBinding) : List InputMod :=
  (if ax.DeadZone > 0 then [InputMod.deadZone ax.DeadZone 1] else []) ++
    (if !IsNearlyEqual ax.Sensitivity 1 then [InputMod.scalar ax.Sensitivity]
     else []) ++
    (if ax.bInvert then [InputMod.negate] else [])

/-- The per-key-mapping modifiers `ApplyAxisBinding` attaches to each valid
axis key, in source order — swizzle, negate iff `Scale < 0`, scale by
`|Scale|` iff not nearly `1`, and negate again iff the axis-level `bInvert`
is set (no guard against the action-level negate). -/
def axisMappingModifiers (ax : FS_InputAxisBinding)
    (kb : FS_AxisKeyBinding) : List InputMod :=
  (if kb.bSwizzleYXZ then [InputMod.swizzleYXZ] else []) ++
    (if kb.Scale < 0 then [InputMod.negate] else []) ++
    (if !IsNearlyEqual |kb.Scale| 1 then [InputMod.scalar |kb.Scale|]
     else []) ++
    (if ax.bInvert then [InputMod.negate] else [])

/-- `UCPP_EnhancedInputIntegration::ApplyAxisBinding`. -/
def ApplyAxisBinding (s : IntegrationState) (ax : FS_InputAxisBinding) :
    Bool × IntegrationState :=
  if !ax.bEnabled then (false, s)
  else
    let r := CreateInputAction ax.InputAxisName ax.ValueType s
    let s1 := setActionDescription ax.InputAxisName ax.DisplayName r.2
    let s2 := setActionModifiers ax.InputAxisName (ApplyAxisModifiers ax) s1
    let s3 := ax.AxisBindings.foldl
      (fun st kb =>
        if isValidKey kb.Key then
          { st with ContextEntries := st.ContextEntries ++
              [{ Action := ax.InputAxisName, Key := kb.Key,
                 Modifiers := axisMappingModifiers ax kb }] }
        else st) s2
    (true, s3)

/-- `TSet::Add` on a name set modelled as a duplicate-free list in
insertion order. -/
def insertName (n : String) (l : List String) : List String :=
  if n ∈ l then l else l ++ [n]

/-- Folding `TSet::Add` over a list of names. -/
def insertAll (names acc : List String) : List String :=
  names.foldl (fun a m => insertName m a) acc

/-- `UCPP_EnhancedInputIntegration::BindActionEvents`.  `hasController` is
whether `OwningController` is set; `comp` identifies the
`UEnhancedInputComponent` reachable from the controller (`none` while no
pawn is possessed, making the cast fail).  Mirrors the source order:
controller check, action lookup, component cast, component-change reset,
already-bound check, subscribe and record. -/
def BindActionEvents (hasController : Bool) (comp : Option Nat)
    (name : String) (s : IntegrationState) : Bool × IntegrationState :=
  if !hasController then (false, s)
  else if (s.CreatedInputActions.lookup name).isNone then (false, s)
  else
    match comp with
    | none => (false, s)
    | some c =>
        let s1 := if s.BoundEnhancedInputComponent = some c then s
          else { s with BoundActions := [], PendingBindActions := [],
                        BoundEnhancedInputComponent := some c }
        if name ∈ s1.BoundActions then (true, s1)
        else (true, { s1 with
          BoundActions := insertName name s1.BoundActions })

/-- `UCPP_EnhancedInputIntegration::BindAllActionEvents`: runs
`BindActionEvents` for every created action and adds each action that
failed to bind to `PendingBindActions`. -/
def BindAllActionEvents (hasController : Bool) (comp : Option Nat)
    (s : IntegrationState) : IntegrationState :=
  (s.CreatedInputActions.map Prod.fst).foldl
    (fun st n =>
      let r := BindActionEvents hasController comp n st
      if r.1 then r.2
      else { r.2 with
        PendingBindActions := insertName n r.2.PendingBindActions })
    s

/-- `UCPP_EnhancedInputIntegration::HasPendingActions`. -/
def HasPendingActions (s : IntegrationState) : Bool :=
  decide (0 < s.PendingBindActions.length)

/-- `UCPP_EnhancedInputIntegration::TryBindPendingActions`.  The source
iterates the live `PendingBindActions` set; the loop body only ever clears
it via the component-change reset, and the snapshot fold used here agrees
with the source whenever no reset fires during the loop. -/
def TryBindPendingActions (hasController : Bool) (comp : Option Nat)
    (s : IntegrationState) : Nat × IntegrationState :=
  let step := s.PendingBindActions.foldl
    (fun (acc : Nat × List String × IntegrationState) n =>
      let r := BindActionEvents hasController comp n acc.2.2
      if r.1 then (acc.1 + 1, acc.2.1 ++ [n], r.2)
      else (acc.1, acc.2.1, r.2))
    (0, [], s)
  (step.1, { step.2.2 with PendingBindActions :=
      step.2.2.PendingBindActions.filter (fun n =>
        !step.2.1.contains n) })

/-- `ETriggerEvent` values observed by the engine's internal handlers. -/
inductive ETriggerEvent where
  | started
  | ongoing
  | triggered
  | completed
  | canceled
deriving Repr, DecidableEq

/-- State of a `UAsyncAction_WaitForInputAction` listener. -/
structure AsyncListenerSt where
  ActionName : String
  bOnlyTriggerOnce : Bool
  bIsActive : Bool := false
  bHasTriggered : Bool := false
deriving Repr, DecidableEq

/-- Blueprint pins a listener can broadcast. -/
inductive ListenerPin where
  | onTriggered
  | onStarted
  | onOngoing
  | onCompleted
  | onCanceled
  | onStopped
deriving Repr, DecidableEq

/-- `UAsyncAction_WaitForInputAction::Cancel`: when active, unregister
(deactivate) and broadcast a terminal `OnStopped`. -/
def listenerCancel (l : AsyncListenerSt) :
    AsyncListenerSt × List ListenerPin :=
  if !l.bIsActive then (l, [])
  else ({ l with bIsActive := false }, [ListenerPin.onStopped])

/-- `UAsyncAction_WaitForInputAction::HandleInputEvent`: the listener-side
event logic, including the one-shot `Triggered` handling that cancels the
listener after its first `Triggered`. -/
def HandleInputEvent (l : AsyncListenerSt) (inName : String)
    (ev : ETriggerEvent) : AsyncListenerSt × List ListenerPin :=
  if inName != l.ActionName then (l, [])
  else if l.bOnlyTriggerOnce && l.bHasTriggered then (l, [])
  else
    match ev with
    | .triggered =>
        let l1 := { l with bHasTriggered := true }
        if l.bOnlyTriggerOnce then
          let r := listenerCancel l1
          (r.1, ListenerPin.onTriggered :: r.2)
        else (l1, [ListenerPin.onTriggered])
    | .started => (l, [ListenerPin.onStarted])
    | .ongoing => (l, [ListenerPin.onOngoing])
    | .completed => (l, [ListenerPin.onCompleted])
    | .canceled => (l, [ListenerPin.onCanceled])

/-- `UCPP_EnhancedInputIntegration::RegisterAsyncListener`: an empty stub
in the source (`TODO`), so the engine's listener array never changes. -/
def RegisterAsyncListener (_l : AsyncListenerSt)
    (listeners : List AsyncListenerSt) : List AsyncListenerSt :=
  listeners

/-- `UCPP_EnhancedInputIntegration::NotifyAsyncListeners`: an empty stub in
the source (`TODO`); it produces no listener callbacks. -/
def NotifyAsyncListeners (_n : String) (_ev : ETriggerEvent)
    (listeners : List AsyncListenerSt) :
    List AsyncListenerSt × List ListenerPin :=
  (listeners, [])

/-- Observable outputs of the engine's internal event handlers. -/
inductive EngineOut where
  | dispatcher (ev : ETriggerEvent) (actionName : String)
  | legacyDispatcher (actionName : String)
  | listenerOut (idx : Nat) (pin : ListenerPin)
deriving Repr, DecidableEq

/-- The engine's internal handler for one host event
(`OnActionTriggeredInternal` and its four siblings): broadcast the matching
per-trigger dispatcher, plus the legacy dispatcher for `Triggered`.  The
`NotifyAsyncListeners` calls are commented out in the source, so no
`listenerOut` output is ever produced. -/
def engineHandleHostEvent (listeners : List AsyncListenerSt)
    (name : String) (ev : ETriggerEvent) :
    List AsyncListenerSt × List EngineOut :=
  match ev with
  | .triggered =>
      (listeners, [EngineOut.dispatcher .triggered name,
                   EngineOut.legacyDispatcher name])
  | e => (listeners, [EngineOut.dispatcher e name])

/-- Run the engine handler over a host event stream, accumulating
outputs. -/
def engineRun (listeners : List AsyncListenerSt)
    (events : List (String × ETriggerEvent)) :
    List AsyncListenerSt × List EngineOut :=
  events.foldl
    (fun acc e =>
      let r := engineHandleHostEvent acc.1 e.1 e.2
      (r.1, acc.2 ++ r.2))
    (listeners, [])

/-- Number of listener callbacks in an engine output stream. -/
def countListenerPins (outs : List EngineOut) : Nat :=
  (outs.filter (fun o => match o with
    | EngineOut.listenerOut _ _ => true
    | _ => false)).length

/-- Feeding an event stream directly through the listener's own
`HandleInputEvent`, accumulating the pins it broadcasts. -/
def listenerRun (l : AsyncListenerSt)
    (events : List (String × ETriggerEvent)) :
    AsyncListenerSt × List ListenerPin :=
  events.foldl
    (fun acc e =>
      let r := HandleInputEvent acc.1 e.1 e.2
      (r.1, acc.2 ++ r.2))
    (l, [])

/-- An activated one-shot listener for `"Jump"`. -/
def c6Listener : AsyncListenerSt :=
  { ActionName := "Jump", bOnlyTriggerOnce := true, bIsActive := true }

/-- Engine state with one created action, used by the deferred-binding
counterexamples. -/
def c4State : IntegrationState :=
  { CreatedInputActions := [("Jump",
      { ValueType := 0, bConsumeInput := true,
        bTriggerWhenPaused := false })] }

/-- Engine state with one created action, used by the invariant
counterexample and witness. -/
def c5State : IntegrationState :=
  { CreatedInputActions := [("Jump",
      { ValueType := 0, bConsumeInput := true,
        bTriggerWhenPaused := false })] }

/-- Enabled axis binding with inversion, dead zone `0`, sensitivity `1` and
a single plain key — the failing input for the double-negate bug. -/
def c7Axis : FS_InputAxisBinding :=
  { InputAxisName := "MoveForward"
    DeadZone := 0
    Sensitivity := 1
    bInvert := true
    AxisBindings := [{ Key := "W" }] }

/-- Enabled action binding whose only key requires the Shift chord — the
failing input for the missing chord synthesis. -/
def c8Binding : FS_InputActionBinding :=
  { InputActionName := "Fire"
    KeyBindings := [{ Key := "F", bShift := true }] }

/-- Existing dynamic action used by the C10 witness. -/
def c10Action : ActionObj :=
  { ValueType := 0, bConsumeInput := true, bTriggerWhenPaused := false }

/-- Engine state already holding `"Jump"`, used by the C10 witness. -/
def c10State : IntegrationState :=
  { CreatedInputActions := [("Jump", c10Action)] }

/-- `FS_PlayerInputData`: the per-controller record the manager keeps.
`IntegrationValid` abstracts `FS_PlayerInputData::IsValid` together with
controller liveness (dead controllers are modelled as invalid records). -/
structure FS_PlayerInputData where
  ActiveProfile : FS_InputProfile
  LoadedTemplateName : String := ""
  IntegrationValid : Bool := true
deriving Repr, DecidableEq

/-- `UCPP_InputBindingManager` state: the in-memory template library and
the per-player record map, both in insertion order. -/
structure ManagerState where
  ProfileTemplates : List (String × FS_InputProfile) := []
  PlayerDataMap : List (Nat × FS_PlayerInputData) := []
deriving Repr, DecidableEq

/-- The on-disk profile directory as `UCPP_InputProfileStorage::LoadProfile`
exposes it: profiles indexed by name, already parsed. -/
abbrev DiskStore := List (String × FS_InputProfile)

/-- `UCPP_InputBindingManager::CleanupInvalidPlayers`: evict records whose
controller or integration is no longer valid. -/
def CleanupInvalidPlayers (s : ManagerState) : ManagerState :=
  { s with PlayerDataMap :=
      s.PlayerDataMap.filter (fun e => e.2.IntegrationValid) }

/-- `UCPP_InputBindingManager::RegisterPlayer` for a non-null controller:
sweep invalid records, return the existing valid record, or create a fresh
integration with an empty active profile named after the player. -/
def RegisterPlayer (pc : Nat) (pcName : String) (now : Int)
    (s : ManagerState) : ManagerState :=
  let s1 := CleanupInvalidPlayers s
  match s1.PlayerDataMap.lookup pc with
  | some _ => s1
  | none =>
      { s1 with PlayerDataMap := s1.PlayerDataMap ++
          [(pc, { ActiveProfile :=
              { freshProfile now with
                ProfileName := "Player_" ++ pcName } })] }

/-- `UCPP_InputBindingManager::GetTemplate`: check the in-memory library
first, then fall back to loading from disk (without caching). -/
def GetTemplate (s : ManagerState) (disk : DiskStore) (t : String) :
    Option FS_InputProfile :=
  match s.ProfileTemplates.lookup t with
  | some p => some p
  | none => disk.lookup t

/-- `TMap::Add`: insert a new entry or overwrite an existing one. -/
def mapAdd {β : Type} (k : String) (v : β) (m : List (String × β)) :
    List (String × β) :=
  if (m.lookup k).isSome then
    m.map (fun e => if e.1 = k then (k, v) else e)
  else m ++ [(k, v)]

/-- `UCPP_InputBindingManager::LoadProfileTemplate`: load from disk and
cache the loaded template in the library. -/
def LoadProfileTemplate (disk : DiskStore) (t : String)
    (s : ManagerState) : Bool × ManagerState :=
  match disk.lookup t with
  | some p =>
      (true, { s with ProfileTemplates := mapAdd t p s.ProfileTemplates })
  | none => (false, s)

/-- `UCPP_InputBindingManager::ApplyPlayerProfileToEnhancedInput`, reduced
to its success condition: the record exists and is valid.  (Its
Enhanced-Input side effects live in the integration engine and do not
touch manager state.) -/
def ApplyPlayerProfileToEnhancedInput (pc : Nat) (s : ManagerState) :
    Bool :=
  match s.PlayerDataMap.lookup pc with
  | some d => d.IntegrationValid
  | none => false

/-- In-place mutation of player `pc`'s record. -/
def updatePlayerData (pc : Nat)
    (f : FS_PlayerInputData → FS_PlayerInputData)
    (m : List (Nat × FS_PlayerInputData)) :
    List (Nat × FS_PlayerInputData) :=
  m.map (fun e => if e.1 = pc then (e.1, f e.2) else e)

/-- Steps 3 and 4 of `ApplyTemplateToPlayer`: copy the resolved template by
value into the record's active profile, overwrite only the copy's
`ProfileName` with the player-specific name, record the template name, and
apply to Enhanced Input. -/
def finishApplyTemplate (pcId : Nat) (pcName t : String)
    (tpl : FS_InputProfile) (s : ManagerState) : Bool × ManagerState :=
  let upd : FS_PlayerInputData → FS_PlayerInputData := fun d =>
    { d with
      ActiveProfile := { tpl with ProfileName := "Player_" ++ pcName }
      LoadedTemplateName := t }
  let s2 := { s with
    PlayerDataMap := updatePlayerData pcId upd s.PlayerDataMap }
  (ApplyPlayerProfileToEnhancedInput pcId s2, s2)

/-- `UCPP_InputBindingManager::ApplyTemplateToPlayer`.  `pc = none` models
a null controller, `pcName` the controller's name string. -/
def ApplyTemplateToPlayer (disk : DiskStore) (now : Int)
    (pc : Option Nat) (pcName : String) (t : String) (s : ManagerState) :
    Bool × ManagerState :=
  match pc with
  | none => (false, s)
  | some pcId =>
      let s1 := RegisterPlayer pcId pcName now s
      if (s1.PlayerDataMap.lookup pcId).isNone then (false, s1)
      else
        match GetTemplate s1 disk t with
        | some tpl => finishApplyTemplate pcId pcName t tpl s1
        | none =>
            let r := LoadProfileTemplate disk t s1
            if !r.1 then (false, r.2)
            else
              match r.2.ProfileTemplates.lookup t with
              | some tpl => finishApplyTemplate pcId pcName t tpl r.2
              | none => (false, r.2)

/-- Stored template used by the C9 witness. -/
def c9Template : FS_InputProfile :=
  { freshProfile 1 with
    ProfileName := "Default"
    ActionBindings := [{ InputActionName := "Jump"
                         KeyBindings := [{ Key := "SpaceBar" }] }] }

/-- Manager state holding the `"Default"` template and one registered
player, used by the C9 witness. -/
def c9State : ManagerState :=
  { ProfileTemplates := [("Default", c9Template)]
    PlayerDataMap := [(7, { ActiveProfile := freshProfile 0 })] }

theorem ratRoundHalfFromZero_intCast (n : Int) :
    ratRoundHalfFromZero (n : Rat) = n := by
  unfold ratRoundHalfFromZero
  rcases le_or_lt 0 ((n : Rat)) with h | h
  · rw [if_pos h, Int.floor_int_add]
    norm_num
  · rw [if_neg (not_le.mpr h)]
    have h1 : (-(n : Rat)) = ((-n : Int) : Rat) := by push_cast; ring
    rw [h1, Int.floor_int_add]
    norm_num

theorem ratTruncToInt_intCast (n : Int) : ratTruncToInt (n : Rat) = n := by
  unfold ratTruncToInt
  rcases le_or_lt 0 ((n : Rat)) with h | h
  · rw [if_pos h, Int.floor_intCast]
  · rw [if_neg (not_le.mpr h)]
    have h1 : (-(n : Rat)) = ((-n : Int) : Rat) := by push_cast; ring
    rw [h1, Int.floor_intCast]
    ring

theorem filterMap_map_roundtrip {α : Type} (f : Json → Option α)
    (g : α → Json) (h : ∀ x, f (g x) = some x) (l : List α) :
    (l.map g).filterMap f = l := by
  induction l with
  | nil => rfl
  | cons x xs ih => simp [h, ih]

theorem filterMap_map_image {α β : Type} (f : Json → Option β)
    (g : α → Json) (h : α → β) (hfg : ∀ x, f (g x) = some (h x))
    (l : List α) : (l.map g).filterMap f = l.map h := by
  induction l with
  | nil => rfl
  | cons x xs ih => simp [hfg, ih]

theorem parseKeyBinding_serialize (kb : FS_KeyBinding) :
    parseKeyBinding (serializeKeyBinding kb) = some kb := rfl

theorem parseAxisKeyBinding_serialize (ak : FS_AxisKeyBinding) :
    parseAxisKeyBinding (serializeAxisKeyBinding ak) = some ak := rfl

theorem asString_str (s : String) : Json.asString (Json.str s) = some s := rfl

theorem parseActionBinding_serialize (ab : FS_InputActionBinding) :
    parseActionBinding (serializeActionBinding ab) = some ab := by
  simp [parseActionBinding, serializeActionBinding, Json.getStringField,
    Json.tryGetString, Json.tryGetNumber, Json.tryGetBool, Json.tryGetArray,
    Json.getField, Json.getNumberField, Json.getBoolField, List.lookup,
    filterMap_map_roundtrip _ _ parseKeyBinding_serialize]

theorem parseAxisBinding_serialize (ax : FS_InputAxisBinding) :
    parseAxisBinding (serializeAxisBinding ax) = some ax := by
  simp [parseAxisBinding, serializeAxisBinding, Json.getStringField,
    Json.tryGetString, Json.tryGetNumber, Json.tryGetBool, Json.tryGetArray,
    Json.tryGetInt, Json.getField, Json.getNumberField, Json.getBoolField,
    List.lookup, ratRoundHalfFromZero_intCast,
    filterMap_map_roundtrip _ _ parseAxisKeyBinding_serialize]

theorem parseModifier_serialize (m : FS_InputModifier) :
    parseModifier (serializeModifier m) = some (scrubModifier m) := by
  simp [parseModifier, serializeModifier, scrubModifier, Json.getIntegerField,
    Json.tryGetNumber, Json.tryGetBool, Json.getField, Json.getNumberField,
    Json.getBoolField, List.lookup, ratTruncToInt_intCast]

/-- C1 (amended): deserializing a serialized profile reproduces every field
of the §3 data model except `Timestamp` and `ToggleActionStates` — which the
serializer never writes, so the out-parameter's prior values survive — and
except each legacy modifier's `ClampRange` and `bInvert`, which come back as
struct defaults. -/
theorem C1_roundTrip_amended (p out : FS_InputProfile) :
    DeserializeProfileFromJson (SerializeProfileToJson p) out =
      some { p with
             Timestamp := out.Timestamp
             ToggleActionStates := out.ToggleActionStates
             Modifiers := p.Modifiers.map scrubModifier } := by
  simp [DeserializeProfileFromJson, SerializeProfileToJson,
    Json.getStringField, Json.tryGetString, Json.tryGetNumber,
    Json.tryGetBool, Json.tryGetArray, Json.tryGetInt, Json.getField,
    List.lookup, ratRoundHalfFromZero_intCast,
    filterMap_map_roundtrip _ _ parseActionBinding_serialize,
    filterMap_map_roundtrip _ _ parseAxisBinding_serialize,
    filterMap_map_image _ _ _ parseModifier_serialize,
    filterMap_map_roundtrip _ _ asString_str]

/-- C1 counterexample: round-tripping `c1Profile` through
`SerializeProfileToJson` and `DeserializeProfileFromJson` does not reproduce
the `ToggleActionStates` map or the `Timestamp` field, contradicting the
claim that every §3 field is reproduced. -/
theorem C1_counterexample :
    (DeserializeProfileFromJson (SerializeProfileToJson c1Profile)
        (freshProfile 0)).map
        (fun q => (q.ToggleActionStates, q.Timestamp)) = some ([], 0) ∧
      (c1Profile.ToggleActionStates, c1Profile.Timestamp) =
        ([("Jump", true)], 5) := by
  constructor
  · rfl
  · rfl

/-- C2 (amended): behavior of every optional field on omission.  The
fields read through `TryGet` getters receive their defaults — `Version`
becomes `1` for pre-version documents, the missing profile-level arrays
(`ToggleModeActions`, `ActionBindings`, `AxisBindings`, `Modifiers`) and
the nested `KeyBindings` / axis `AxisBindings` arrays become empty, a key
binding's `Value` and an axis key's `Scale` become `1.0`, the chord flags
and `bSwizzleYXZ` become `false`, and an axis binding's `DisplayName`,
`Description`, `ValueType`, `Priority` keep the struct defaults — while
the fields read with plain getters do not receive their documented
defaults: an omitted axis `DeadZone` or `Sensitivity` becomes `0` and an
omitted axis `bInvert` / `bEnabled` or action `Priority` / `bEnabled`
becomes `false` / `0`. -/
theorem C2_missingField_defaults :
    (∀ (fields : List (String × Json)) (out : FS_InputProfile),
        (fields.lookup "Version" = none →
          (DeserializeProfileFromJson (Json.obj fields) out).map
            (fun p => p.Version) = some 1) ∧
        (fields.lookup "ToggleModeActions" = none →
          (DeserializeProfileFromJson (Json.obj fields) out).map
            (fun p => p.ToggleModeActions) = some []) ∧
        (fields.lookup "ActionBindings" = none →
          (DeserializeProfileFromJson (Json.obj fields) out).map
            (fun p => p.ActionBindings) = some []) ∧
        (fields.lookup "AxisBindings" = none →
          (DeserializeProfileFromJson (Json.obj fields) out).map
            (fun p => p.AxisBindings) = some []) ∧
        (fields.lookup "Modifiers" = none →
          (DeserializeProfileFromJson (Json.obj fields) out).map
            (fun p => p.Modifiers) = some []))
    ∧ (∀ kf : List (String × Json),
        (kf.lookup "Value" = none →
          (parseKeyBinding (Json.obj kf)).map
            (fun kb => kb.Value) = some 1) ∧
        (kf.lookup "bShift" = none →
          (parseKeyBinding (Json.obj kf)).map
            (fun kb => kb.bShift) = some false) ∧
        (kf.lookup "bCtrl" = none →
          (parseKeyBinding (Json.obj kf)).map
            (fun kb => kb.bCtrl) = some false) ∧
        (kf.lookup "bAlt" = none →
          (parseKeyBinding (Json.obj kf)).map
            (fun kb => kb.bAlt) = some false) ∧
        (kf.lookup "bCmd" = none →
          (parseKeyBinding (Json.obj kf)).map
            (fun kb => kb.bCmd) = some false))
    ∧ (∀ af : List (String × Json),
        (af.lookup "KeyBindings" = none →
          (parseActionBinding (Json.obj af)).map
            (fun ab => ab.KeyBindings) = some []) ∧
        (af.lookup "Priority" = none →
          (parseActionBinding (Json.obj af)).map
            (fun ab => ab.Priority) = some 0) ∧
        (af.lookup "bEnabled" = none →
          (parseActionBinding (Json.obj af)).map
            (fun ab => ab.bEnabled) = some false))
    ∧ (∀ xf : List (String × Json),
        (xf.lookup "DisplayName" = none →
          (parseAxisBinding (Json.obj xf)).map
            (fun ax => ax.DisplayName) = some "") ∧
        (xf.lookup "Description" = none →
          (parseAxisBinding (Json.obj xf)).map
            (fun ax => ax.Description) = some "") ∧
        (xf.lookup "ValueType" = none →
          (parseAxisBinding (Json.obj xf)).map
            (fun ax => ax.ValueType) = some 1) ∧
        (xf.lookup "Priority" = none →
          (parseAxisBinding (Json.obj xf)).map
            (fun ax => ax.Priority) = some 1) ∧
        (xf.lookup "AxisBindings" = none →
          (parseAxisBinding (Json.obj xf)).map
            (fun ax => ax.AxisBindings) = some []) ∧
        (xf.lookup "DeadZone" = none →
          (parseAxisBinding (Json.obj xf)).map
            (fun ax => ax.DeadZone) = some 0) ∧
        (xf.lookup "Sensitivity" = none →
          (parseAxisBinding (Json.obj xf)).map
            (fun ax => ax.Sensitivity) = some 0) ∧
        (xf.lookup "bInvert" = none →
          (parseAxisBinding (Json.obj xf)).map
            (fun ax => ax.bInvert) = some false) ∧
        (xf.lookup "bEnabled" = none →
          (parseAxisBinding (Json.obj xf)).map
            (fun ax => ax.bEnabled) = some false))
    ∧ (∀ akf : List (String × Json),
        (akf.lookup "Scale" = none →
          (parseAxisKeyBinding (Json.obj akf)).map
            (fun ak => ak.Scale) = some 1) ∧
        (akf.lookup "bSwizzleYXZ" = none →
          (parseAxisKeyBinding (Json.obj akf)).map
            (fun ak => ak.bSwizzleYXZ) = some false)) := by
  refine ⟨fun fields out =>
      ⟨fun h => ?_, fun h => ?_, fun h => ?_, fun h => ?_, fun h => ?_⟩,
    fun kf =>
      ⟨fun h => ?_, fun h => ?_, fun h => ?_, fun h => ?_, fun h => ?_⟩,
    fun af => ⟨fun h => ?_, fun h => ?_, fun h => ?_⟩,
    fun xf =>
      ⟨fun h => ?_, fun h => ?_, fun h => ?_, fun h => ?_, fun h => ?_,
       fun h => ?_, fun h => ?_, fun h => ?_, fun h => ?_⟩,
    fun akf => ⟨fun h => ?_, fun h => ?_⟩⟩ <;>
  simp [DeserializeProfileFromJson, parseKeyBinding, parseActionBinding,
    parseAxisBinding, parseAxisKeyBinding, Json.tryGetInt,
    Json.tryGetNumber, Json.tryGetBool, Json.tryGetString,
    Json.tryGetArray, Json.getField, Json.getNumberField,
    Json.getBoolField, Json.getStringField, h]

/-- Witness for `C2_missingField_defaults`: concrete objects omitting each
kind of field, exercising both the substituted defaults and the
plain-getter zero/false results. -/
theorem C2_missingField_defaults_witness :
    (DeserializeProfileFromJson (Json.obj []) (freshProfile 0)).map
        (fun p => p.Version) = some 1 ∧
      (parseKeyBinding (Json.obj [])).map (fun kb => kb.Value) = some 1 ∧
      (parseKeyBinding (Json.obj [])).map
        (fun kb => kb.bShift) = some false ∧
      (parseActionBinding (Json.obj [])).map
        (fun ab => ab.bEnabled) = some false ∧
      (parseAxisBinding (Json.obj [])).map
        (fun ax => ax.Priority) = some 1 ∧
      (parseAxisBinding (Json.obj [])).map
        (fun ax => ax.DeadZone) = some 0 ∧
      (parseAxisKeyBinding (Json.obj [])).map
        (fun ak => ak.Scale) = some 1 :=
  ⟨(C2_missingField_defaults.1 [] (freshProfile 0)).1 rfl,
   (C2_missingField_defaults.2.1 []).1 rfl,
   (C2_missingField_defaults.2.1 []).2.1 rfl,
   (C2_missingField_defaults.2.2.1 []).2.2 rfl,
   (C2_missingField_defaults.2.2.2.1 []).2.2.2.1 rfl,
   (C2_missingField_defaults.2.2.2.1 []).2.2.2.2.2.1 rfl,
   (C2_missingField_defaults.2.2.2.2 []).1 rfl⟩

/-- C2 counterexample: omitting the single optional field `DeadZone` from an
otherwise complete document yields `DeadZone = 0` in the parsed profile,
not the documented default `0.2`, because the source reads it with
`GetNumberField` instead of a `TryGet` getter. -/
theorem C2_counterexample :
    (DeserializeProfileFromJson c2Doc (freshProfile 0)).map
        (fun p => p.AxisBindings.map (fun ax => ax.DeadZone)) = some [0] ∧
      ({} : FS_InputAxisBinding).DeadZone = 1 / 5 := by
  constructor
  · rfl
  · rfl

theorem mem_conflictsBetween {a b : FS_InputActionBinding}
    {p : String × String} (hp : p ∈ conflictsBetween a b) :
    p = (a.InputActionName, b.InputActionName) := by
  simp only [conflictsBetween, List.mem_flatMap, List.mem_filterMap] at hp
  obtain ⟨ka, _hka, kb, _hkb, hif⟩ := hp
  by_cases h : keysMatch ka kb
  · rw [if_pos h] at hif
    exact (Option.some.inj hif).symm
  · rw [if_neg h] at hif
    exact Option.noConfusion hif

theorem count_conflictsBetween_ne {a b : FS_InputActionBinding}
    {p : String × String}
    (hp : p ≠ (a.InputActionName, b.InputActionName)) :
    List.count p (conflictsBetween a b) = 0 := by
  rw [List.count_eq_zero]
  exact fun hmem => hp (mem_conflictsBetween hmem)

theorem count_conflictsBetween_self (a b : FS_InputActionBinding) :
    List.count (a.InputActionName, b.InputActionName)
      (conflictsBetween a b) = (conflictsBetween a b).length := by
  rw [List.count_eq_length]
  intro q hq
  simp [mem_conflictsBetween hq]

theorem sublist_names_of_mem_DetectConflicts :
    ∀ {l : List FS_InputActionBinding} {p : String × String},
      p ∈ DetectConflicts l →
      List.Sublist [p.1, p.2] (l.map (fun ab => ab.InputActionName))
  | [], p, hp => by simp [DetectConflicts] at hp
  | a :: rest, p, hp => by
      simp only [DetectConflicts, List.mem_append] at hp
      rcases hp with hp | hp
      · obtain ⟨b, hb, hpb⟩ := List.mem_flatMap.mp hp
        have hpe := mem_conflictsBetween hpb
        subst hpe
        simp only [List.map_cons]
        exact List.Sublist.cons₂ _
          (List.singleton_sublist.mpr (List.mem_map_of_mem _ hb))
      · exact (sublist_names_of_mem_DetectConflicts hp).cons _

theorem count_bind_conflicts_ne {a : FS_InputActionBinding}
    {rest : List FS_InputActionBinding} {p : String × String}
    (hp : p.1 ≠ a.InputActionName) :
    List.count p (rest.flatMap (conflictsBetween a)) = 0 := by
  rw [List.count_eq_zero]
  intro hmem
  obtain ⟨b, _hb, hpb⟩ := List.mem_flatMap.mp hmem
  exact hp (congrArg Prod.fst (mem_conflictsBetween hpb))

theorem count_bind_conflicts_eq (a B : FS_InputActionBinding) :
    ∀ (l2 l3 : List FS_InputActionBinding),
      B.InputActionName ∉ l2.map (fun ab => ab.InputActionName) →
      B.InputActionName ∉ l3.map (fun ab => ab.InputActionName) →
      List.count (a.InputActionName, B.InputActionName)
          ((l2 ++ B :: l3).flatMap (conflictsBetween a))
        = (conflictsBetween a B).length
  | [], l3, _h2, h3 => by
      simp only [List.nil_append, List.flatMap_cons, List.count_append]
      rw [count_conflictsBetween_self]
      have hz : List.count (a.InputActionName, B.InputActionName)
          (l3.flatMap (conflictsBetween a)) = 0 := by
        rw [List.count_eq_zero]
        intro hmem
        obtain ⟨c, hc, hpc⟩ := List.mem_flatMap.mp hmem
        have h2nd : B.InputActionName = c.InputActionName :=
          congrArg Prod.snd (mem_conflictsBetween hpc)
        refine h3 ?_
        rw [h2nd]
        exact List.mem_map_of_mem _ hc
      omega
  | c :: l2, l3, h2, h3 => by
      simp only [List.cons_append, List.flatMap_cons, List.count_append]
      have hc0 : List.count (a.InputActionName, B.InputActionName)
          (conflictsBetween a c) = 0 := by
        apply count_conflictsBetween_ne
        intro he
        have he2 : B.InputActionName = c.InputActionName :=
          congrArg Prod.snd he
        refine h2 ?_
        rw [he2]
        simp
      rw [hc0,
        count_bind_conflicts_eq a B l2 l3 (fun hm => h2 (by simp [hm])) h3]
      omega

theorem count_DetectConflicts_decomp :
    ∀ (l1 : List FS_InputActionBinding) (A : FS_InputActionBinding)
      (l2 l3 : List FS_InputActionBinding) (B : FS_InputActionBinding),
      ((l1 ++ A :: l2 ++ B :: l3).map
        (fun ab => ab.InputActionName)).Nodup →
      List.count (A.InputActionName, B.InputActionName)
          (DetectConflicts (l1 ++ A :: l2 ++ B :: l3))
        = (conflictsBetween A B).length
  | [], A, l2, l3, B, hnd => by
      simp only [List.nil_append, DetectConflicts, List.append_eq,
        List.append_assoc, List.count_append]
      have hnd2 : ((A :: (l2 ++ B :: l3)).map
          (fun ab => ab.InputActionName)).Nodup := by
        simpa only [List.nil_append, List.cons_append] using hnd
      rw [List.map_cons, List.nodup_cons] at hnd2
      obtain ⟨hA, htail⟩ := hnd2
      rw [List.map_append, List.map_cons] at htail
      obtain ⟨_h2nd, h3nd, hdisj⟩ := List.nodup_append.mp htail
      have hB2 : B.InputActionName ∉
          l2.map (fun ab => ab.InputActionName) :=
        fun hm => hdisj hm (List.mem_cons_self _ _)
      have hB3 : B.InputActionName ∉
          l3.map (fun ab => ab.InputActionName) :=
        (List.nodup_cons.mp h3nd).1
      rw [count_bind_conflicts_eq A B l2 l3 hB2 hB3]
      have hz : List.count (A.InputActionName, B.InputActionName)
          (DetectConflicts (l2 ++ B :: l3)) = 0 := by
        rw [List.count_eq_zero]
        intro hmem
        have hsub := sublist_names_of_mem_DetectConflicts hmem
        have hA2 : A.InputActionName ∈
            (l2 ++ B :: l3).map (fun ab => ab.InputActionName) :=
          hsub.subset (by simp)
        exact hA hA2
      omega
  | x :: l1, A, l2, l3, B, hnd => by
      simp only [List.cons_append, DetectConflicts, List.append_eq,
        List.append_assoc, List.count_append]
      have hnd2 : ((x :: (l1 ++ A :: l2 ++ B :: l3)).map
          (fun ab => ab.InputActionName)).Nodup := by
        simpa only [List.cons_append] using hnd
      rw [List.map_cons, List.nodup_cons] at hnd2
      obtain ⟨hx, htail⟩ := hnd2
      have hxA : A.InputActionName ≠ x.InputActionName := by
        intro he
        apply hx
        rw [← he]
        exact List.mem_map_of_mem _ (by simp)
      have hrec := count_DetectConflicts_decomp l1 A l2 l3 B htail
      simp only [List.cons_append, List.append_assoc] at hrec
      rw [count_bind_conflicts_ne hxA, hrec]
      omega

theorem sublist_pair_asymm {α : Type} {a b : α} :
    ∀ {l : List α}, l.Nodup → List.Sublist [a, b] l →
      List.Sublist [b, a] l → a = b
  | [], _, h1, _ => by
      rw [List.sublist_nil] at h1
      exact absurd h1 (by simp)
  | x :: xs, hnd, h1, h2 => by
      obtain ⟨hx, hxs⟩ := List.nodup_cons.mp hnd
      cases h1 with
      | cons _ h1t =>
          cases h2 with
          | cons _ h2t => exact sublist_pair_asymm hxs h1t h2t
          | cons₂ _ h2t =>
              exact absurd (h1t.subset (by simp)) hx
      | cons₂ _ h1t =>
          cases h2 with
          | cons _ h2t =>
              exact absurd (h2t.subset (by simp)) hx
          | cons₂ _ h2t => rfl

theorem length_conflictsBetween_pos_iff (A B : FS_InputActionBinding) :
    0 < (conflictsBetween A B).length ↔
      ∃ ka ∈ A.KeyBindings, ∃ kb ∈ B.KeyBindings,
        keysMatch ka kb = true := by
  rw [List.length_pos_iff_exists_mem]
  constructor
  · rintro ⟨p, hp⟩
    simp only [conflictsBetween, List.mem_flatMap, List.mem_filterMap] at hp
    obtain ⟨ka, hka, kb, hkb, hif⟩ := hp
    refine ⟨ka, hka, kb, hkb, ?_⟩
    by_contra h
    rw [if_neg (by simpa using h)] at hif
    exact Option.noConfusion hif
  · rintro ⟨ka, hka, kb, hkb, h⟩
    refine ⟨(A.InputActionName, B.InputActionName), ?_⟩
    simp only [conflictsBetween, List.mem_flatMap, List.mem_filterMap]
    exact ⟨ka, hka, kb, hkb, by simp [h]⟩

/-- C3 counterexample: the two actions `c3A` and `c3B` share two
key-plus-chord tuples, and `DetectConflicts` reports the ordered pair once
per matching key pair — twice — not exactly once as the claim states. -/
theorem C3_counterexample :
    DetectConflicts [c3A, c3B] = [("A", "B"), ("A", "B")] ∧
      List.count ("A", "B") (DetectConflicts [c3A, c3B]) ≠ 1 := by
  constructor
  · rfl
  · decide

/-- C3 (amended): for action bindings with pairwise-distinct names, every
conflict between the actions at positions `i < j` is emitted as the ordered
pair `(name_i, name_j)` — the reversed pair never appears — and the pair is
emitted once per matching `(key, shift, ctrl, alt, cmd)` combination (so a
pair sharing `k` tuple combinations appears `k` times, not exactly once);
in particular the pair appears iff the two actions share at least one
tuple. -/
theorem C3_DetectConflicts_amended (l1 l2 l3 : List FS_InputActionBinding)
    (A B : FS_InputActionBinding)
    (hnd : ((l1 ++ A :: l2 ++ B :: l3).map
      (fun ab => ab.InputActionName)).Nodup) :
    List.count (A.InputActionName, B.InputActionName)
        (DetectConflicts (l1 ++ A :: l2 ++ B :: l3))
      = (conflictsBetween A B).length
    ∧ (B.InputActionName, A.InputActionName) ∉
        DetectConflicts (l1 ++ A :: l2 ++ B :: l3)
    ∧ ((A.InputActionName, B.InputActionName) ∈
          DetectConflicts (l1 ++ A :: l2 ++ B :: l3) ↔
        ∃ ka ∈ A.KeyBindings, ∃ kb ∈ B.KeyBindings,
          keysMatch ka kb = true) := by
  have hsubAB : List.Sublist [A.InputActionName, B.InputActionName]
      ((l1 ++ A :: l2 ++ B :: l3).map (fun ab => ab.InputActionName)) := by
    have h1 : List.Sublist [B.InputActionName]
        (l2.map (fun ab => ab.InputActionName) ++
          B.InputActionName :: l3.map (fun ab => ab.InputActionName)) :=
      List.singleton_sublist.mpr (by simp)
    have h2 := List.Sublist.cons₂ A.InputActionName h1
    have h3 := List.sublist_append_right
      (l1.map (fun ab => ab.InputActionName))
      (A.InputActionName ::
        (l2.map (fun ab => ab.InputActionName) ++
          B.InputActionName :: l3.map (fun ab => ab.InputActionName)))
    simp only [List.map_append, List.map_cons, List.cons_append,
      List.append_assoc]
    exact h2.trans h3
  refine ⟨count_DetectConflicts_decomp l1 A l2 l3 B hnd, ?_, ?_⟩
  · intro hmem
    have hsubBA := sublist_names_of_mem_DetectConflicts hmem
    have heq := sublist_pair_asymm hnd hsubBA hsubAB
    have hndAB := hnd.sublist hsubAB
    simp only [List.nodup_cons, List.mem_singleton] at hndAB
    exact hndAB.1 heq.symm
  · constructor
    · intro hmem
      refine (length_conflictsBetween_pos_iff A B).mp ?_
      rw [← count_DetectConflicts_decomp l1 A l2 l3 B hnd]
      exact List.count_pos_iff.mpr hmem
    · intro hex
      have hp := (length_conflictsBetween_pos_iff A B).mpr hex
      rw [← count_DetectConflicts_decomp l1 A l2 l3 B hnd] at hp
      exact List.count_pos_iff.mp hp

/-- Witness for `C3_DetectConflicts_amended` at a concrete two-action
profile. -/
theorem C3_DetectConflicts_amended_witness :
    List.count (c3A.InputActionName, c3B.InputActionName)
        (DetectConflicts [c3A, c3B]) = (conflictsBetween c3A c3B).length ∧
      (c3B.InputActionName, c3A.InputActionName) ∉
        DetectConflicts [c3A, c3B] :=
  ⟨(C3_DetectConflicts_amended [] [] [] c3A c3B (by decide)).1,
   (C3_DetectConflicts_amended [] [] [] c3A c3B (by decide)).2.1⟩

/-- C4 counterexample: with the host input component unavailable, a direct
`BindActionEvents` call on a created action returns false but does not
enqueue the action — `PendingBindActions` stays empty and
`HasPendingActions` stays false — contradicting the claim that the action
is added regardless of the call path. -/
theorem C4_counterexample :
    BindActionEvents true none "Jump" c4State = (false, c4State) ∧
      HasPendingActions (BindActionEvents true none "Jump" c4State).2 =
        false := by
  constructor
  · rfl
  · rfl

/-- C5 counterexample: bind `"Jump"` while a component is live, lose the
component, and run `BindAllActionEvents` again — afterwards `"Jump"` sits
in both `BoundActions` and `PendingBindActions`, violating the claimed
invariant `pendingBindActions ∩ boundActions = ∅`. -/
theorem C5_counterexample :
    "Jump" ∈ (BindAllActionEvents true none
        (BindAllActionEvents true (some 1) c5State)).BoundActions ∧
      "Jump" ∈ (BindAllActionEvents true none
        (BindAllActionEvents true (some 1) c5State)).PendingBindActions := by
  constructor
  · decide
  · decide

/-- C6: evaluation at the failing input.  With a one-shot listener for
`"Jump"` registered through `RegisterAsyncListener` (an empty stub) and two
host `Triggered` events for `"Jump"`, the engine produces zero listener
callbacks — not the claimed one `OnTriggered` plus one `OnStopped` — while
the listener's own `HandleInputEvent` logic, fed the same two events
directly, would realize exactly the claimed behavior. -/
theorem C6_oneShot_listener_pipeline :
    countListenerPins (engineRun (RegisterAsyncListener c6Listener [])
        [("Jump", ETriggerEvent.triggered),
         ("Jump", ETriggerEvent.triggered)]).2 = 0 ∧
      (listenerRun c6Listener
          [("Jump", ETriggerEvent.triggered),
           ("Jump", ETriggerEvent.triggered)]).2 =
        [ListenerPin.onTriggered, ListenerPin.onStopped] := by
  constructor
  · rfl
  · rfl

/-- C7: evaluation at the failing input.  For an enabled inverted axis with
dead zone `0`, sensitivity `1`, and one plain key `"W"`, `ApplyAxisBinding`
attaches one negate at the action level and a second negate on the
key-mapping entry: the negate modifier occurs twice on the input path, so
the inversion cancels instead of being applied exactly once. -/
theorem C7_invert_negate_applied_twice :
    (ApplyAxisBinding {} c7Axis).1 = true ∧
      ((ApplyAxisBinding {} c7Axis).2.CreatedInputActions.lookup
          "MoveForward").map (fun a => a.Modifiers) =
        some [InputMod.negate] ∧
      (ApplyAxisBinding {} c7Axis).2.ContextEntries.map
          (fun e => e.Modifiers) = [[InputMod.negate]] ∧
      List.count InputMod.negate
          (axisMappingModifiers c7Axis { Key := "W" } ++
            ApplyAxisModifiers c7Axis) = 2 := by
  have h1 : IsNearlyEqual (1 : Rat) 1 = true := by norm_num [IsNearlyEqual]
  have h2 : |(1 : Rat)| = 1 := by norm_num
  have h3 : ¬((1 : Rat) < 0) := by norm_num
  refine ⟨rfl, ?_, ?_, ?_⟩ <;>
    simp [ApplyAxisBinding, c7Axis, CreateInputAction,
      setActionDescription, setActionModifiers, ApplyAxisModifiers,
      axisMappingModifiers, isValidKey, h1, h2, h3, List.lookup]

/-- C8: evaluation at the failing input.  Applying an enabled action
binding whose key requires Shift maps the bare key: the single
mapping-context entry carries no trigger, and no `"ModifierShift"` action
is created — the chord synthesis the claim describes exists only behind a
`TODO` on this path. -/
theorem C8_applyProfile_no_chord_synthesis :
    (ApplyActionBinding {} c8Binding).1 = true ∧
      (ApplyActionBinding {} c8Binding).2.ContextEntries =
        [{ Action := "Fire", Key := "F" }] ∧
      (ApplyActionBinding {} c8Binding).2.CreatedInputActions.lookup
        "ModifierShift" = none := by
  refine ⟨rfl, rfl, rfl⟩

/-- C10: `CreateInputAction` returns an existing entry unchanged — with the
whole engine state untouched — regardless of the requested value kind, and
configures `ValueType`, `bConsumeInput = true`,
`bTriggerWhenPaused = false` only when the action is first created. -/
theorem C10_CreateInputAction_firstCreationOnly (s : IntegrationState)
    (name : String) (vt : Int) :
    (∀ a, s.CreatedInputActions.lookup name = some a →
        CreateInputAction name vt s = (a, s)) ∧
      (s.CreatedInputActions.lookup name = none →
        CreateInputAction name vt s =
          ({ ValueType := vt, bConsumeInput := true,
             bTriggerWhenPaused := false },
           { s with CreatedInputActions := s.CreatedInputActions ++
              [(name, { ValueType := vt, bConsumeInput := true,
                        bTriggerWhenPaused := false })] })) := by
  constructor
  · intro a ha
    simp [CreateInputAction, ha]
  · intro h
    simp [CreateInputAction, h]

/-- Witness for `C10_CreateInputAction_firstCreationOnly`: asking for
`"Jump"` with a different value kind returns the stored Boolean action and
leaves the state unchanged. -/
theorem C10_CreateInputAction_witness :
    CreateInputAction "Jump" 2 c10State = (c10Action, c10State) :=
  (C10_CreateInputAction_firstCreationOnly c10State "Jump" 2).1
    c10Action rfl

theorem bindActionEvents_comp_none (hc : Bool) (n : String)
    (s : IntegrationState) :
    BindActionEvents hc none n s = (false, s) := by
  unfold BindActionEvents
  cases hc
  · simp
  · simp only [Bool.not_true, Bool.false_eq_true, if_false]
    split <;> rfl

theorem self_mem_insertName (n : String) (l : List String) :
    n ∈ insertName n l := by
  unfold insertName
  by_cases h : n ∈ l <;> simp [h]

theorem mem_insertName_of_mem {x : String} {l : List String}
    (m : String) (h : x ∈ l) : x ∈ insertName m l := by
  unfold insertName
  by_cases hm : m ∈ l <;> simp [hm, h]

theorem mem_insertAll :
    ∀ (names acc : List String) (n : String),
      n ∈ names ∨ n ∈ acc → n ∈ insertAll names acc
  | [], acc, n, h => by
      rcases h with h | h
      · simp at h
      · simpa [insertAll] using h
  | m :: ms, acc, n, h => by
      simp only [insertAll, List.foldl_cons]
      rw [show ms.foldl (fun a m => insertName m a) (insertName m acc) =
        insertAll ms (insertName m acc) from rfl]
      apply mem_insertAll ms
      rcases h with h | h
      · rcases List.mem_cons.mp h with he | hm
        · right
          rw [he]
          exact self_mem_insertName m acc
        · left
          exact hm
      · right
        exact mem_insertName_of_mem m h

theorem foldl_pendingInsert :
    ∀ (names : List String) (s : IntegrationState),
      names.foldl (fun st n =>
          { st with PendingBindActions := insertName n st.PendingBindActions }) s
        = { s with
            PendingBindActions := insertAll names s.PendingBindActions }
  | [], s => by simp [insertAll]
  | n :: ns, s => by
      simp only [List.foldl_cons]
      rw [foldl_pendingInsert ns]
      simp [insertAll]

theorem bindAllActionEvents_comp_none_pending (hc : Bool)
    (names : List String) (s : IntegrationState) :
    names.foldl (fun st n =>
        let r := BindActionEvents hc none n st
        if r.1 then r.2
        else { r.2 with PendingBindActions := insertName n r.2.PendingBindActions }) s
      = { s with
          PendingBindActions := insertAll names s.PendingBindActions } := by
  have hfun : (fun (st : IntegrationState) (n : String) =>
      let r := BindActionEvents hc none n st
      if r.1 then r.2
      else { r.2 with PendingBindActions := insertName n r.2.PendingBindActions })
      = (fun st n =>
        { st with PendingBindActions := insertName n st.PendingBindActions }) := by
    funext st n
    simp [bindActionEvents_comp_none]
  rw [hfun]
  exact foldl_pendingInsert names s

theorem lookup_isSome_mem_keys {β : Type} :
    ∀ (l : List (String × β)) (k : String),
      (l.lookup k).isSome → k ∈ l.map Prod.fst
  | [], k, h => by simp [List.lookup] at h
  | (a, b) :: es, k, h => by
      by_cases he : a = k
      · simp [he]
      · have hb : (k == a) = false := by
          simp
          exact fun hk => he hk.symm
        rw [List.lookup, hb] at h
        exact List.mem_cons.mpr (Or.inr (lookup_isSome_mem_keys es k h))

/-- C4 (amended): when the host input component is unavailable,
`BindActionEvents` returns false and leaves the state — in particular
`PendingBindActions` — unchanged; the enqueueing the claim describes
happens only on the `BindAllActionEvents` path, which adds every created
action that failed to bind to `PendingBindActions` (after which
`HasPendingActions` is true). -/
theorem C4_BindActionEvents_amended (hc : Bool) (name : String)
    (s : IntegrationState)
    (hcreated : (s.CreatedInputActions.lookup name).isSome) :
    BindActionEvents hc none name s = (false, s) ∧
      name ∈ (BindAllActionEvents hc none s).PendingBindActions := by
  refine ⟨bindActionEvents_comp_none hc name s, ?_⟩
  unfold BindAllActionEvents
  rw [bindAllActionEvents_comp_none_pending hc]
  apply mem_insertAll
  left
  exact lookup_isSome_mem_keys _ name hcreated

/-- Witness for `C4_BindActionEvents_amended` at the concrete engine state
with one created action and no input component. -/
theorem C4_BindActionEvents_amended_witness :
    BindActionEvents true none "Jump" c4State = (false, c4State) ∧
      "Jump" ∈ (BindAllActionEvents true none c4State).PendingBindActions :=
  C4_BindActionEvents_amended true "Jump" c4State (by decide)

/-- C5 (amended): a successful `BindActionEvents` leaves the action in
`BoundActions`, but it never removes the action from
`PendingBindActions`: the pending set survives the call unchanged unless
the bound component changed, in which case both sets were wholesale reset
first.  (Because success does not remove the action from the pending set,
the disjointness invariant of the claim can be violated — see the
counterexample.) -/
theorem C5_BindActionEvents_amended (hc : Bool) (c : Nat) (name : String)
    (s : IntegrationState)
    (hok : (BindActionEvents hc (some c) name s).1 = true) :
    name ∈ (BindActionEvents hc (some c) name s).2.BoundActions ∧
      (BindActionEvents hc (some c) name s).2.PendingBindActions =
        (if s.BoundEnhancedInputComponent = some c
         then s.PendingBindActions else []) := by
  by_cases h1 : hc
  · by_cases h2 : (s.CreatedInputActions.lookup name).isNone
    · exfalso
      simp [BindActionEvents, h1, h2] at hok
    · by_cases h3 : s.BoundEnhancedInputComponent = some c
      · by_cases h4 : name ∈ s.BoundActions
        · simp [BindActionEvents, h1, h2, h3, h4]
        · simp [BindActionEvents, h1, h2, h3, h4, self_mem_insertName]
      · simp [BindActionEvents, h1, h2, h3, insertName]
  · exfalso
    simp [BindActionEvents, h1] at hok

/-- Witness for `C5_BindActionEvents_amended` at the concrete one-action
state with a live component. -/
theorem C5_BindActionEvents_amended_witness :
    "Jump" ∈ (BindActionEvents true (some 1) "Jump" c5State).2.BoundActions ∧
      (BindActionEvents true (some 1) "Jump" c5State).2.PendingBindActions =
        (if c5State.BoundEnhancedInputComponent = some 1
         then c5State.PendingBindActions else []) :=
  C5_BindActionEvents_amended true 1 "Jump" c5State (by decide)

theorem lookup_append_none {β : Type} :
    ∀ (l1 l2 : List (Nat × β)) (k : Nat),
      l1.lookup k = none → (l1 ++ l2).lookup k = l2.lookup k
  | [], l2, k, _ => by simp
  | (a, b) :: es, l2, k, h => by
      by_cases he : a = k
      · rw [List.lookup, show (k == a) = true by simp [he]] at h
        exact absurd h (by simp)
      · have hb : (k == a) = false := by
          simp
          exact fun hk => he hk.symm
        rw [List.cons_append, List.lookup, hb]
        rw [List.lookup, hb] at h
        exact lookup_append_none es l2 k h

theorem lookup_updatePlayerData (pc : Nat)
    (f : FS_PlayerInputData → FS_PlayerInputData) :
    ∀ m : List (Nat × FS_PlayerInputData),
      (updatePlayerData pc f m).lookup pc = (m.lookup pc).map f
  | [] => by simp [updatePlayerData]
  | (a, d) :: es => by
      by_cases he : a = pc
      · subst he
        have hstep : updatePlayerData a f ((a, d) :: es) =
            (a, f d) :: updatePlayerData a f es := by
          simp [updatePlayerData]
        rw [hstep]
        simp [List.lookup]
      · have hb : (pc == a) = false := by
          simp
          exact fun hk => he hk.symm
        have hstep : updatePlayerData pc f ((a, d) :: es) =
            (a, d) :: updatePlayerData pc f es := by
          simp only [updatePlayerData, List.map_cons]
          rw [if_neg he]
        rw [hstep]
        simp only [List.lookup, hb]
        exact lookup_updatePlayerData pc f es

theorem RegisterPlayer_ProfileTemplates (pc : Nat) (pcName : String)
    (now : Int) (s : ManagerState) :
    (RegisterPlayer pc pcName now s).ProfileTemplates =
      s.ProfileTemplates := by
  unfold RegisterPlayer
  simp only [CleanupInvalidPlayers]
  cases h : List.lookup pc
      (List.filter (fun e => e.2.IntegrationValid) s.PlayerDataMap) <;>
    simp [h]

theorem RegisterPlayer_lookup_isSome (pc : Nat) (pcName : String)
    (now : Int) (s : ManagerState) :
    ((RegisterPlayer pc pcName now s).PlayerDataMap.lookup pc).isSome := by
  unfold RegisterPlayer
  simp only [CleanupInvalidPlayers]
  cases h : List.lookup pc
      (List.filter (fun e => e.2.IntegrationValid) s.PlayerDataMap) with
  | some d => simp [h]
  | none =>
      simp only [h]
      rw [lookup_append_none _ _ _ h]
      simp [List.lookup]

/-- C9: when the template is stored in the manager's library,
`ApplyTemplateToPlayer` leaves the template library untouched — the entry
for the template still holds the original profile — while the player's
record receives a by-value copy of the template whose `ProfileName` alone
has been overwritten with the player-specific name.  (The function takes
the on-disk store as read-only input and performs no save, so the disk
copy is untouched as well.) -/
theorem C9_ApplyTemplateToPlayer_templateImmutable (disk : DiskStore)
    (now : Int) (pc : Nat) (pcName t : String) (s : ManagerState)
    (P : FS_InputProfile)
    (hP : s.ProfileTemplates.lookup t = some P) :
    (ApplyTemplateToPlayer disk now (some pc) pcName t
        s).2.ProfileTemplates = s.ProfileTemplates ∧
      (ApplyTemplateToPlayer disk now (some pc) pcName t
          s).2.ProfileTemplates.lookup t = some P ∧
      ((ApplyTemplateToPlayer disk now (some pc) pcName t
          s).2.PlayerDataMap.lookup pc).map (fun d => d.ActiveProfile) =
        some { P with ProfileName := "Player_" ++ pcName } := by
  have hT := RegisterPlayer_ProfileTemplates pc pcName now s
  have hreg := RegisterPlayer_lookup_isSome pc pcName now s
  have hGet : GetTemplate (RegisterPlayer pc pcName now s) disk t =
      some P := by
    unfold GetTemplate
    rw [hT, hP]
  obtain ⟨d, hd⟩ := Option.isSome_iff_exists.mp hreg
  have hNotNone :
      ((RegisterPlayer pc pcName now s).PlayerDataMap.lookup pc).isNone =
        false := by
    rw [hd]
    rfl
  simp only [ApplyTemplateToPlayer, hNotNone, Bool.false_eq_true,
    if_false, hGet, finishApplyTemplate]
  refine ⟨hT, ?_, ?_⟩
  · rw [hT, hP]
  · rw [lookup_updatePlayerData, hd]
    rfl

/-- Witness for `C9_ApplyTemplateToPlayer_templateImmutable` at a concrete
manager state with one stored template and one registered player. -/
theorem C9_ApplyTemplateToPlayer_witness :
    (ApplyTemplateToPlayer [] 0 (some 7) "PC7" "Default"
        c9State).2.ProfileTemplates = c9State.ProfileTemplates ∧
      (ApplyTemplateToPlayer [] 0 (some 7) "PC7" "Default"
          c9State).2.ProfileTemplates.lookup "Default" = some c9Template ∧
      ((ApplyTemplateToPlayer [] 0 (some 7) "PC7" "Default"
          c9State).2.PlayerDataMap.lookup 7).map
          (fun d => d.ActiveProfile) =
        some { c9Template with ProfileName := "Player_" ++ "PC7" } :=
  C9_ApplyTemplateToPlayer_templateImmutable [] 0 7 "PC7" "Default"
    c9State c9Template rfl

end PMEIS
